import Mathlib

/-!
Shallow embedding of the scaling-group provisioning model:
the Spotinst AWS adapter (`pkg/resources/spotinst/aws.go`) and the
`AutoscalingGroupModelBuilder` of the `awsmodel` package.  Pure Go
functions become Lean functions; fallible collaborator calls are
supplied through an environment record and failures are threaded with
`Except`; the in-place mutation of `ig.Spec.Volumes` performed by the
launch-configuration builder is made explicit by returning the updated
specification next to the built task.
-/

namespace KopsSpot

/-! ## String helpers mirroring the Go `strings` package -/

/-- `listStarts sub l` is true when `sub` is a leading segment of `l`. -/
def listStarts : List Char → List Char → Bool
  | [], _ => true
  | _ :: _, [] => false
  | a :: as, b :: bs => (a = b) && listStarts as bs

/-- `listHasSub sub l` mirrors `strings.Contains(l, sub)`. -/
def listHasSub : List Char → List Char → Bool
  | sub, [] => listStarts sub []
  | sub, b :: bs => listStarts sub (b :: bs) || listHasSub sub bs

/-- `strings.Contains(s, sub)`. -/
def goContains (s sub : String) : Bool :=
  listHasSub sub.data s.data

/-- ASCII lower-casing of one character, as `strings.ToLower` does per rune. -/
def asciiToLower (c : Char) : Char :=
  if 65 ≤ c.toNat ∧ c.toNat ≤ 90 then Char.ofNat (c.toNat + 32) else c

/-- `strings.ToLower` (ASCII fragment, which is all the adapter compares). -/
def goToLower (s : String) : String :=
  ⟨s.data.map asciiToLower⟩

/-- `strings.Split(s, sep)[0]` for a one-character separator: the part of
`s` before the first occurrence of `sep` (all of `s` when absent). -/
def splitFirstAux (sep : Char) : List Char → List Char
  | [] => []
  | c :: rest => if c = sep then [] else c :: splitFirstAux sep rest

/-- First component of `strings.Split(s, sep)`. -/
def goSplitFirst (s : String) (sep : Char) : String :=
  ⟨splitFirstAux sep s.data⟩

/-! ## `fi` pointer-value helpers (`fi.StringValue`, `fi.Int32Value`, ...) -/

/-- `fi.StringValue`: dereference with `""` for `nil`. -/
def fiStringValue (o : Option String) : String := o.getD ""

/-- `fi.Int32Value` / `fi.Int64Value`: dereference with `0` for `nil`. -/
def fiInt32Value (o : Option Int) : Int := o.getD 0

/-- `fi.BoolValue`: dereference with `false` for `nil`. -/
def fiBoolValue (o : Option Bool) : Bool := o.getD false

/-! ## Spotinst adapter: ocean launch-spec delete and the detach inputs -/

/-- One entry of the SDK's `client.Errors` slice. -/
structure ClientError where
  code : String
  message : String
deriving DecidableEq

/-- A Go `error` as the adapter observes it: either the SDK's structured
`client.Errors` (the backend API error shape the type assertion in
`Delete` looks for) or some other error value. -/
inductive GoError
  | clientErrors (errs : List ClientError)
  | other (msg : String)
deriving DecidableEq

/-- The suppressed-message literal of `awsOceanLaunchSpecService.Delete`. -/
def oceanNotExistMsg : String := "ocean does not exist"

/-- `awsOceanLaunchSpecService.Delete`, given the backend call's outcome
(`none` = the delete succeeded): scans a `client.Errors` value and turns
it into success when any entry's lower-cased message contains
`"ocean does not exist"`; every other error is returned unchanged. -/
def awsOceanLaunchSpecDelete (backend : Option GoError) : Option GoError :=
  match backend with
  | none => none
  | some err =>
    match err with
    | .clientErrors errs =>
      if errs.any (fun e => goContains (goToLower e.message) oceanNotExistMsg) then
        none
      else
        some err
    | .other _ => some err

/-- Whether any message carried by the error contains, case-insensitively,
`"ocean does not exist"`. -/
def errMessagesContainOcean : GoError → Bool
  | .clientErrors errs => errs.any fun e => goContains (goToLower e.message) oceanNotExistMsg
  | .other msg => goContains (goToLower msg) oceanNotExistMsg

/-- `awseg.DetachGroupInput` (the fields the adapter populates). -/
structure DetachGroupInput where
  groupID : String
  instanceIDs : List String
  shouldDecrementTargetCapacity : Bool
  shouldTerminateInstances : Bool
deriving DecidableEq

/-- `awsoc.DetachClusterInstancesInput` (the fields the adapter populates). -/
structure DetachClusterInstancesInput where
  clusterID : String
  instanceIDs : List String
  shouldDecrementTargetCapacity : Bool
  shouldTerminateInstances : Bool
deriving DecidableEq

/-- The request `awsElastigroupService.Detach` sends. -/
def awsElastigroupDetachInput (groupID instanceID : String) : DetachGroupInput :=
  { groupID := groupID
    instanceIDs := [instanceID]
    shouldDecrementTargetCapacity := false
    shouldTerminateInstances := true }

/-- The request `awsOceanClusterService.Detach` sends. -/
def awsOceanClusterDetachInput (clusterID instanceID : String) : DetachClusterInstancesInput :=
  { clusterID := clusterID
    instanceIDs := [instanceID]
    shouldDecrementTargetCapacity := false
    shouldTerminateInstances := true }

/-- The request `awsOceanLaunchSpecService.Detach` sends (it reuses the
cluster-detach input shape with the launch-spec id in the cluster slot). -/
def awsOceanLaunchSpecDetachInput (specID instanceID : String) : DetachClusterInstancesInput :=
  { clusterID := specID
    instanceIDs := [instanceID]
    shouldDecrementTargetCapacity := false
    shouldTerminateInstances := true }

/-! ## awsmodel constants (`pkg/model/awsmodel` constants block) -/

/-- `DefaultVolumeType = ec2.VolumeTypeGp2`. -/
def DefaultVolumeType : String := "gp2"

/-- Default IOPS for io1/io2 volumes. -/
def DefaultVolumeIonIops : Int := 100

/-- Default IOPS for gp3 volumes. -/
def DefaultVolumeGp3Iops : Int := 3000

/-- Default throughput for gp3 volumes. -/
def DefaultVolumeGp3Throughput : Int := 125

/-- Default delete-on-termination behavior. -/
def DefaultVolumeDeleteOnTermination : Bool := true

/-- Default encryption behavior. -/
def DefaultVolumeEncryption : Bool := false

/-- `ec2.VolumeTypeIo1`. -/
def VolumeTypeIo1 : String := "io1"

/-- `ec2.VolumeTypeIo2`. -/
def VolumeTypeIo2 : String := "io2"

/-- `ec2.VolumeTypeGp3`. -/
def VolumeTypeGp3 : String := "gp3"

/-! ## kops API data model (the fields the builder reads) -/

/-- `kops.InstanceGroupRole`. -/
inductive InstanceGroupRole
  | Master
  | Node
  | Bastion
deriving DecidableEq

/-- The `%v` rendering of a role (the kops role constants are strings). -/
def roleString : InstanceGroupRole → String
  | .Master => "Master"
  | .Node => "Node"
  | .Bastion => "Bastion"

/-- `kops.SubnetType` values the builder inspects. -/
inductive SubnetType
  | Public
  | Utility
  | Private
deriving DecidableEq

/-- A gathered cluster subnet, as far as the builder reads it. -/
structure Subnet where
  typ : SubnetType
  subnetName : String
deriving DecidableEq

/-- `kops.VolumeSpec`: one entry of `ig.Spec.Volumes`. -/
structure VolumeSpec where
  device : String
  size : Int
  typ : String
  iops : Option Int
  throughput : Option Int
  deleteOnTermination : Option Bool
  encrypted : Option Bool
  key : Option String
deriving DecidableEq

/-- `kops.MixedInstancesPolicySpec`. -/
structure MixedInstancesPolicySpec where
  instances : List String
  onDemandAllocationStrategy : Option String
  onDemandBase : Option Int
  onDemandAboveBase : Option Int
  spotAllocationStrategy : Option String
  spotInstancePools : Option Int
deriving DecidableEq

/-- `kops.InstanceMetadataOptions`. -/
structure InstanceMetadataOptions where
  httpTokens : Option String
  httpPutResponseHopLimit : Option Int
deriving DecidableEq

/-- `kops.LoadBalancer` external load-balancer reference on the spec. -/
structure ExternalLoadBalancerSpec where
  loadBalancerName : Option String
  targetGroupARN : Option String
deriving DecidableEq

/-- `kops.InstanceGroupSpec` (the fields the builder reads or writes). -/
structure InstanceGroupSpec where
  role : InstanceGroupRole
  image : String
  machineType : String
  minSize : Option Int
  maxSize : Option Int
  rootVolumeSize : Option Int
  rootVolumeType : Option String
  rootVolumeIops : Option Int
  rootVolumeThroughput : Option Int
  rootVolumeEncryption : Option Bool
  rootVolumeEncryptionKey : Option String
  rootVolumeDeleteOnTermination : Option Bool
  rootVolumeOptimization : Option Bool
  volumes : List VolumeSpec
  securityGroupOverride : Option String
  additionalSecurityGroups : List String
  tenancy : String
  instanceMetadata : Option InstanceMetadataOptions
  mixedInstancesPolicy : Option MixedInstancesPolicySpec
  externalLoadBalancers : List ExternalLoadBalancerSpec
  maxPrice : Option String
  spotDurationInMinutes : Option Int
  instanceInterruptionBehavior : Option String
  associatePublicIP : Option Bool
  suspendProcesses : List String
  detailedInstanceMonitoring : Option Bool
  instanceProtection : Option Bool
  subnetNames : List String
deriving DecidableEq

/-! ## awstasks resources (the fields the builder populates) -/

/-- `awstasks.SecurityGroup` (the fields the builder sets). -/
structure SecurityGroup where
  id : Option String
  sgName : Option String
  shared : Bool
deriving DecidableEq

/-- `awstasks.BlockDeviceMapping`. -/
structure BlockDeviceMapping where
  deviceName : String
  ebsDeleteOnTermination : Bool
  ebsEncrypted : Bool
  ebsKmsKey : Option String
  ebsVolumeIops : Option Int
  ebsVolumeSize : Int
  ebsVolumeThroughput : Option Int
  ebsVolumeType : String
deriving DecidableEq

/-- `awstasks.LaunchConfiguration` (the fields the builder sets; pointer
fields the builder may leave `nil` are `Option`s). -/
structure LaunchConfiguration where
  lcName : String
  iamInstanceProfile : String
  imageID : String
  instanceMonitoring : Option Bool
  instanceType : String
  rootVolumeDeleteOnTermination : Bool
  rootVolumeOptimization : Option Bool
  rootVolumeSize : Int
  rootVolumeType : String
  rootVolumeEncryption : Bool
  rootVolumeIops : Option Int
  securityGroups : List SecurityGroup
  httpTokens : String
  httpPutResponseHopLimit : Int
  tenancy : Option String
  blockDeviceMappings : List BlockDeviceMapping
  sshKey : Option String
  userData : String
  spotPrice : String
  associatePublicIP : Option Bool
deriving DecidableEq

/-- `awstasks.LaunchTemplate` (the fields the builder sets). -/
structure LaunchTemplate where
  ltName : String
  associatePublicIP : Option Bool
  blockDeviceMappings : List BlockDeviceMapping
  iamInstanceProfile : String
  imageID : String
  instanceMonitoring : Option Bool
  instanceType : String
  rootVolumeOptimization : Option Bool
  rootVolumeSize : Int
  rootVolumeIops : Option Int
  rootVolumeThroughput : Option Int
  rootVolumeType : String
  rootVolumeEncryption : Bool
  rootVolumeKmsKey : String
  sshKey : Option String
  securityGroups : List SecurityGroup
  tags : List (String × String)
  tenancy : Option String
  userData : String
  httpTokens : String
  httpPutResponseHopLimit : Int
  spotPrice : String
  spotDurationInMinutes : Option Int
  instanceInterruptionBehavior : Option String
deriving DecidableEq

/-- `awstasks.ClassicLoadBalancer` (the fields the builder sets). -/
structure ClassicLoadBalancer where
  clbName : String
  loadBalancerName : Option String
  shared : Bool
deriving DecidableEq

/-- `awstasks.TargetGroup` (the fields the builder sets). -/
structure TargetGroup where
  tgName : String
  arn : Option String
  shared : Bool
deriving DecidableEq

/-- `awstasks.AutoscalingGroup` (the fields the builder sets). -/
structure AutoscalingGroup where
  asgName : String
  granularity : String
  metrics : List String
  minSize : Int
  maxSize : Int
  subnets : List String
  tags : List (String × String)
  suspendProcesses : List String
  instanceProtection : Option Bool
  loadBalancers : List ClassicLoadBalancer
  targetGroups : List TargetGroup
  mixedInstanceOverrides : List String
  mixedOnDemandAboveBase : Option Int
  mixedOnDemandAllocationStrategy : Option String
  mixedOnDemandBase : Option Int
  mixedSpotAllocationStrategy : Option String
  mixedSpotInstancePools : Option Int
  mixedSpotMaxPrice : Option String
deriving DecidableEq

/-! ## The builder environment: external collaborators and cluster policy -/

/-- Failures the build surfaces (collaborator errors and hard errors). -/
inductive BuildError
  | volumeSizeDefault
  | iamProfile
  | sshKeyLink
  | nodeUpScript
  | gatherSubnets
  | emptySubnets
  | cloudTags
  | arnParse
deriving DecidableEq

/-- The collaborator results and cluster-level policy the builder consults
for one instance group (`AWSModelContext`, feature flags, and the
subnet/IAM/tag/bootstrap collaborators of §6). `none` on a fallible
collaborator field means that collaborator call fails. -/
structure BuilderEnv where
  defaultVolumeSize : Option Int
  roleSecurityGroup : SecurityGroup
  iamInstanceProfile : Option String
  apiLoadBalancerClassNetwork : Bool
  clusterAPIAdditionalSecurityGroups : List String
  useSSHKey : Bool
  sshKey : Option String
  userData : Option String
  gatheredSubnets : Option (List Subnet)
  cloudTags : Option (List (String × String))
  flagSpotinst : Bool
  flagSpotinstHybrid : Bool
  hybridIG : Bool
  useLoadBalancerForAPI : Bool
  useNetworkLoadBalancer : Bool
  sslCertificate : String
  targetGroupNameFromARN : String → Option String
  linkToCLB : String → ClassicLoadBalancer
  linkToTargetGroup : String → TargetGroup
  linkToSubnet : Subnet → String

/-! ## Launch-configuration builder (`buildLaunchConfigurationTask`) -/

/-- The normalized root volume type: the spec's value, or `gp2` when the
spec leaves it empty (the `volumeType` local of the builder). -/
def normalizedRootVolumeType (ig : InstanceGroupSpec) : String :=
  if fiStringValue ig.rootVolumeType = "" then DefaultVolumeType else fiStringValue ig.rootVolumeType

/-- The in-place normalization the additional block-device loop performs on
one `ig.Spec.Volumes` entry: default the type to `gp2`; for io1/io2 set
iops to 100 only when unset; for gp3 set iops to 3000 and throughput to
125 only when unset; for any other type clear iops. -/
def normalizeVolume (x : VolumeSpec) : VolumeSpec :=
  let x := if x.typ = "" then { x with typ := DefaultVolumeType } else x
  if x.typ = VolumeTypeIo1 ∨ x.typ = VolumeTypeIo2 then
    if x.iops = none then { x with iops := some DefaultVolumeIonIops } else x
  else if x.typ = VolumeTypeGp3 then
    let x := if x.iops = none then { x with iops := some DefaultVolumeGp3Iops } else x
    if x.throughput = none then { x with throughput := some DefaultVolumeGp3Throughput } else x
  else
    { x with iops := none }

/-- The `awstasks.BlockDeviceMapping` built from one (already normalized)
volume entry. -/
def volumeMapping (x : VolumeSpec) : BlockDeviceMapping :=
  { deviceName := x.device
    ebsDeleteOnTermination := x.deleteOnTermination.getD DefaultVolumeDeleteOnTermination
    ebsEncrypted := x.encrypted.getD DefaultVolumeEncryption
    ebsKmsKey := x.key
    ebsVolumeIops := x.iops
    ebsVolumeSize := x.size
    ebsVolumeThroughput := x.throughput
    ebsVolumeType := x.typ }

/-- The shared security-group task built for an additional security-group id. -/
def sharedSg (id : String) : SecurityGroup :=
  { id := some id, sgName := some id, shared := true }

/-- The shared security-group task built for an API-NLB additional group id. -/
def nlbSg (id : String) : SecurityGroup :=
  { id := some id, sgName := some ("nlb-" ++ id), shared := true }

/-- The `LaunchConfiguration` struct literal of the builder (fields not in
the literal carry their Go zero value and are assigned later). -/
def lcLiteral (b : BuilderEnv) (name : String) (ig : InstanceGroupSpec)
    (dvs : Int) (link : String) : LaunchConfiguration :=
  { lcName := name
    iamInstanceProfile := link
    imageID := ig.image
    instanceMonitoring := ig.detailedInstanceMonitoring
    instanceType := goSplitFirst ig.machineType ','
    rootVolumeDeleteOnTermination := ig.rootVolumeDeleteOnTermination.getD DefaultVolumeDeleteOnTermination
    rootVolumeOptimization := ig.rootVolumeOptimization
    rootVolumeSize := if fiInt32Value ig.rootVolumeSize > 0 then fiInt32Value ig.rootVolumeSize else dvs
    rootVolumeType := normalizedRootVolumeType ig
    rootVolumeEncryption := ig.rootVolumeEncryption.getD DefaultVolumeEncryption
    rootVolumeIops := none
    securityGroups :=
      [match ig.securityGroupOverride with
       | none => b.roleSecurityGroup
       | some ov => { id := some ov, sgName := some (ov ++ "-" ++ roleString ig.role), shared := true }]
    httpTokens := ""
    httpPutResponseHopLimit := 0
    tenancy := none
    blockDeviceMappings := []
    sshKey := none
    userData := ""
    spotPrice := ""
    associatePublicIP := none }

/-- Metadata-service fields: `"optional"` / `1` then overridden when the
spec carries explicit metadata options. -/
def lcMetadata (ig : InstanceGroupSpec) (t : LaunchConfiguration) : LaunchConfiguration :=
  { t with
    httpTokens :=
      (match ig.instanceMetadata with
       | some md => md.httpTokens
       | none => none).getD "optional"
    httpPutResponseHopLimit :=
      (match ig.instanceMetadata with
       | some md => md.httpPutResponseHopLimit
       | none => none).getD 1 }

/-- For a control-plane group behind a network API load balancer, append the
cluster's additional API security groups as shared tasks. -/
def lcNlbSgs (b : BuilderEnv) (ig : InstanceGroupSpec) (t : LaunchConfiguration) : LaunchConfiguration :=
  { t with securityGroups :=
      t.securityGroups ++
        (if ig.role = InstanceGroupRole.Master ∧ b.apiLoadBalancerClassNetwork then
          b.clusterAPIAdditionalSecurityGroups.map nlbSg
        else []) }

/-- Root iops: only io1/io2 get a value; below 100 or unset floors to 100. -/
def lcRootIops (ig : InstanceGroupSpec) (t : LaunchConfiguration) : LaunchConfiguration :=
  { t with rootVolumeIops :=
      if normalizedRootVolumeType ig = VolumeTypeIo1 ∨ normalizedRootVolumeType ig = VolumeTypeIo2 then
        (if fiInt32Value ig.rootVolumeIops < 100 then some DefaultVolumeIonIops
         else some (fiInt32Value ig.rootVolumeIops))
      else t.rootVolumeIops }

/-- Tenancy: copied only when the spec sets it. -/
def lcTenancy (ig : InstanceGroupSpec) (t : LaunchConfiguration) : LaunchConfiguration :=
  { t with tenancy := if ig.tenancy ≠ "" then some ig.tenancy else t.tenancy }

/-- Additional security groups appended as shared tasks. -/
def lcAddlSgs (ig : InstanceGroupSpec) (t : LaunchConfiguration) : LaunchConfiguration :=
  { t with securityGroups := t.securityGroups ++ ig.additionalSecurityGroups.map sharedSg }

/-- Additional block devices: the loop normalizes each `ig.Spec.Volumes`
entry in place and appends the mapping built from the normalized entry. -/
def lcVolumes (ig : InstanceGroupSpec) (t : LaunchConfiguration) : LaunchConfiguration :=
  { t with blockDeviceMappings :=
      t.blockDeviceMappings ++ (ig.volumes.map normalizeVolume).map volumeMapping }

/-- Spot price: copied only when the spec's max price is non-empty. -/
def lcSpotPrice (ig : InstanceGroupSpec) (t : LaunchConfiguration) : LaunchConfiguration :=
  { t with spotPrice :=
      if fiStringValue ig.maxPrice ≠ "" then fiStringValue ig.maxPrice else t.spotPrice }

/-- Associate-public-IP from the first gathered subnet's type: public or
utility defaults to true and the spec may override; private is forced
false. -/
def lcPublicIP (ig : InstanceGroupSpec) (s0 : Subnet) (t : LaunchConfiguration) : LaunchConfiguration :=
  { t with associatePublicIP :=
      match s0.typ with
      | .Public | .Utility =>
        some (match ig.associatePublicIP with
              | some v => v
              | none => true)
      | .Private => some false }

/-- The SSH-key step: links the cluster SSH key only when policy asks. -/
def sshKeyResult (b : BuilderEnv) : Except BuildError (Option String) :=
  if b.useSSHKey then
    match b.sshKey with
    | none => .error .sshKeyLink
    | some k => .ok (some k)
  else .ok none

/-- The full pure assembly of the launch configuration from the fallible
collaborators' results, in the builder's statement order. -/
def assembleLC (b : BuilderEnv) (name : String) (ig : InstanceGroupSpec)
    (dvs : Int) (link : String) (sk : Option String) (userData : String)
    (s0 : Subnet) : LaunchConfiguration :=
  lcPublicIP ig s0
    (lcSpotPrice ig
      ({ lcVolumes ig
          (lcAddlSgs ig
            (lcTenancy ig
              (lcRootIops ig
                (lcNlbSgs b ig
                  (lcMetadata ig
                    (lcLiteral b name ig dvs link)))))) with
        sshKey := sk, userData := userData }))

/-- The specification after the build: the additional-volumes loop has
normalized every entry in place; nothing else of the spec is written. -/
def specAfterBuild (ig : InstanceGroupSpec) : InstanceGroupSpec :=
  { ig with volumes := ig.volumes.map normalizeVolume }

/-- `buildLaunchConfigurationTask`: resolves the fallible collaborators in
the source's order, then assembles the task.  Because the Go code mutates
`ig.Spec.Volumes` through the loop variable, the function returns the
updated spec next to the task (an empty gathered-subnet list, which the
Go code would index out of range, is a hard error). -/
def buildLaunchConfigurationTask (b : BuilderEnv) (name : String) (ig : InstanceGroupSpec) :
    Except BuildError (LaunchConfiguration × InstanceGroupSpec) :=
  match b.defaultVolumeSize with
  | none => .error .volumeSizeDefault
  | some dvs =>
    match b.iamInstanceProfile with
    | none => .error .iamProfile
    | some link =>
      match sshKeyResult b with
      | .error e => .error e
      | .ok sk =>
        match b.userData with
        | none => .error .nodeUpScript
        | some userData =>
          match b.gatheredSubnets with
          | none => .error .gatherSubnets
          | some [] => .error .emptySubnets
          | some (s0 :: _) =>
            .ok (assembleLC b name ig dvs link sk userData s0, specAfterBuild ig)

/-! ## Launch-template builder (`buildLaunchTemplateTask`) -/

/-- The `LaunchTemplate` struct literal: field-by-field copy of the launch
configuration plus cloud tags (spot fields, KMS key and gp3 floors are
assigned afterwards; Go zero values until then). -/
def ltLiteral (name : String) (tags : List (String × String)) (lc : LaunchConfiguration) : LaunchTemplate :=
  { ltName := name
    associatePublicIP := lc.associatePublicIP
    blockDeviceMappings := lc.blockDeviceMappings
    iamInstanceProfile := lc.iamInstanceProfile
    imageID := lc.imageID
    instanceMonitoring := lc.instanceMonitoring
    instanceType := lc.instanceType
    rootVolumeOptimization := lc.rootVolumeOptimization
    rootVolumeSize := lc.rootVolumeSize
    rootVolumeIops := lc.rootVolumeIops
    rootVolumeThroughput := none
    rootVolumeType := lc.rootVolumeType
    rootVolumeEncryption := lc.rootVolumeEncryption
    rootVolumeKmsKey := ""
    sshKey := lc.sshKey
    securityGroups := lc.securityGroups
    tags := tags
    tenancy := lc.tenancy
    userData := lc.userData
    httpTokens := lc.httpTokens
    httpPutResponseHopLimit := lc.httpPutResponseHopLimit
    spotPrice := ""
    spotDurationInMinutes := none
    instanceInterruptionBehavior := none }

/-- Spot price on the template: the configuration's value only when no
mixed-instances policy is present; forced empty otherwise. -/
def ltSpotPrice (ig : InstanceGroupSpec) (lc : LaunchConfiguration) (lt : LaunchTemplate) : LaunchTemplate :=
  { lt with spotPrice := if ig.mixedInstancesPolicy = none then lc.spotPrice else "" }

/-- Spot duration copied only when set on the spec. -/
def ltSpotDuration (ig : InstanceGroupSpec) (lt : LaunchTemplate) : LaunchTemplate :=
  { lt with spotDurationInMinutes :=
      match ig.spotDurationInMinutes with
      | some d => some d
      | none => lt.spotDurationInMinutes }

/-- Interruption behavior copied only when set on the spec. -/
def ltInterruption (ig : InstanceGroupSpec) (lt : LaunchTemplate) : LaunchTemplate :=
  { lt with instanceInterruptionBehavior :=
      match ig.instanceInterruptionBehavior with
      | some v => some v
      | none => lt.instanceInterruptionBehavior }

/-- KMS key: copied only when encryption is enabled and a key is supplied,
explicitly cleared otherwise. -/
def ltKmsKey (ig : InstanceGroupSpec) (lt : LaunchTemplate) : LaunchTemplate :=
  { lt with rootVolumeKmsKey :=
      if fiBoolValue ig.rootVolumeEncryption ∧ ig.rootVolumeEncryptionKey ≠ none then
        fiStringValue ig.rootVolumeEncryptionKey
      else "" }

/-- gp3 floors re-applied at the template layer: iops below 3000 or unset
floors to 3000, throughput below 125 or unset floors to 125. -/
def ltGp3 (ig : InstanceGroupSpec) (lt : LaunchTemplate) : LaunchTemplate :=
  if lt.rootVolumeType = VolumeTypeGp3 then
    { lt with
      rootVolumeIops :=
        if fiInt32Value ig.rootVolumeIops < 3000 then some DefaultVolumeGp3Iops
        else some (fiInt32Value ig.rootVolumeIops)
      rootVolumeThroughput :=
        if fiInt32Value ig.rootVolumeThroughput < 125 then some DefaultVolumeGp3Throughput
        else some (fiInt32Value ig.rootVolumeThroughput) }
  else lt

/-- The pure template assembly from the built configuration, in the
source's statement order (the spec reads happen after the configuration
build, so they see the volume-normalized spec). -/
def assembleLT (name : String) (tags : List (String × String))
    (ig2 : InstanceGroupSpec) (lc : LaunchConfiguration) : LaunchTemplate :=
  ltGp3 ig2 (ltKmsKey ig2 (ltInterruption ig2 (ltSpotDuration ig2 (ltSpotPrice ig2 lc (ltLiteral name tags lc)))))

/-- `buildLaunchTemplateTask`: builds the configuration first, then the
cloud tags, then derives the template. -/
def buildLaunchTemplateTask (b : BuilderEnv) (name : String) (ig : InstanceGroupSpec) :
    Except BuildError (LaunchTemplate × InstanceGroupSpec) :=
  match buildLaunchConfigurationTask b name ig with
  | .error e => .error e
  | .ok (lc, ig2) =>
    match b.cloudTags with
    | none => .error .cloudTags
    | some tags => .ok (assembleLT name tags ig2 lc, ig2)

/-! ## Autoscaling-group builder (`buildAutoScalingGroupTask`) -/

/-- The `AutoscalingGroup` struct literal (granularity and metrics only;
everything else carries its Go zero value until assigned). -/
def asgLiteral (name : String) : AutoscalingGroup :=
  { asgName := name
    granularity := "1Minute"
    metrics :=
      ["GroupDesiredCapacity", "GroupInServiceInstances", "GroupMaxSize", "GroupMinSize",
       "GroupPendingInstances", "GroupStandbyInstances", "GroupTerminatingInstances",
       "GroupTotalInstances"]
    minSize := 0
    maxSize := 0
    subnets := []
    tags := []
    suspendProcesses := []
    instanceProtection := none
    loadBalancers := []
    targetGroups := []
    mixedInstanceOverrides := []
    mixedOnDemandAboveBase := none
    mixedOnDemandAllocationStrategy := none
    mixedOnDemandBase := none
    mixedSpotAllocationStrategy := none
    mixedSpotInstancePools := none
    mixedSpotMaxPrice := none }

/-- Capacity bounds: explicit spec values win, each independently;
otherwise the worker (node) role falls back to 2 and every other role
to 1. -/
def asgCapacity (ig : InstanceGroupSpec) (t : AutoscalingGroup) : AutoscalingGroup :=
  { t with
    minSize :=
      match ig.minSize with
      | some m => m
      | none => if ig.role = InstanceGroupRole.Node then 2 else 1
    maxSize :=
      match ig.maxSize with
      | some m => m
      | none => if ig.role = InstanceGroupRole.Node then 2 else 1 }

/-- Subnet references for every gathered subnet. -/
def asgSubnets (b : BuilderEnv) (subnets : List Subnet) (t : AutoscalingGroup) : AutoscalingGroup :=
  { t with subnets := subnets.map b.linkToSubnet }

/-- Tags, suspended processes and instance protection copied verbatim. -/
def asgTagsEtc (ig : InstanceGroupSpec) (tags : List (String × String)) (t : AutoscalingGroup) : AutoscalingGroup :=
  { t with tags := tags, suspendProcesses := ig.suspendProcesses, instanceProtection := ig.instanceProtection }

/-- Control-plane attachment: with API load balancing, a network load
balancer contributes the tcp target group (plus a tls one when a
certificate is configured), otherwise the api classic load balancer. -/
def asgMasterLB (b : BuilderEnv) (ig : InstanceGroupSpec) (t : AutoscalingGroup) : AutoscalingGroup :=
  if b.useLoadBalancerForAPI ∧ ig.role = InstanceGroupRole.Master then
    (if b.useNetworkLoadBalancer then
      { t with targetGroups :=
          t.targetGroups ++ [b.linkToTargetGroup "tcp"] ++
            (if b.sslCertificate ≠ "" then [b.linkToTargetGroup "tls"] else []) }
    else
      { t with loadBalancers := t.loadBalancers ++ [b.linkToCLB "api"] })
  else t

/-- Bastion attachment: the dedicated bastion classic load balancer. -/
def asgBastionLB (b : BuilderEnv) (ig : InstanceGroupSpec) (t : AutoscalingGroup) : AutoscalingGroup :=
  if ig.role = InstanceGroupRole.Bastion then
    { t with loadBalancers := t.loadBalancers ++ [b.linkToCLB "bastion"] }
  else t

/-- Managed load-balancer / target-group attachments: skipped when the
Spotinst integration manages attachments; otherwise the control-plane
role attaches the API CLB or the tcp (and possibly tls) target groups,
and the bastion role attaches the bastion CLB. -/
def asgManagedLBs (b : BuilderEnv) (ig : InstanceGroupSpec) (t : AutoscalingGroup) : AutoscalingGroup :=
  if (¬ b.flagSpotinst) ∨ (b.flagSpotinstHybrid ∧ ¬ b.hybridIG) then
    asgBastionLB b ig (asgMasterLB b ig t)
  else t

/-- External load-balancer references from the spec: names become shared
classic load balancers; target-group ARNs are resolved through the
ARN-parsing collaborator (failure propagates) and become shared target
groups named `{group}-{target}`. -/
def attachExternalLBs (b : BuilderEnv) (name : String) :
    List ExternalLoadBalancerSpec → AutoscalingGroup → Except BuildError AutoscalingGroup
  | [], t => .ok t
  | extLB :: rest, t =>
    let t :=
      match extLB.loadBalancerName with
      | some nm =>
        { t with loadBalancers :=
            t.loadBalancers ++ [{ clbName := nm, loadBalancerName := some nm, shared := true }] }
      | none => t
    match extLB.targetGroupARN with
    | some arn =>
      match b.targetGroupNameFromARN arn with
      | none => .error .arnParse
      | some tgn =>
        attachExternalLBs b name rest
          { t with targetGroups :=
              t.targetGroups ++ [{ tgName := name ++ "-" ++ tgn, arn := some arn, shared := true }] }
    | none => attachExternalLBs b name rest t

/-- Order on classic load balancers used by the final sort (by name). -/
def lbLE (a b : ClassicLoadBalancer) : Prop := a.clbName ≤ b.clbName

/-- Order on target groups used by the final sort (by name). -/
def tgLE (a b : TargetGroup) : Prop := a.tgName ≤ b.tgName

instance : DecidableRel lbLE := fun a b => inferInstanceAs (Decidable (a.clbName ≤ b.clbName))

instance : DecidableRel tgLE := fun a b => inferInstanceAs (Decidable (a.tgName ≤ b.tgName))

instance : IsTotal ClassicLoadBalancer lbLE := ⟨fun a b => le_total a.clbName b.clbName⟩

instance : IsTrans ClassicLoadBalancer lbLE := ⟨fun _ _ _ h1 h2 => le_trans h1 h2⟩

instance : IsTotal TargetGroup tgLE := ⟨fun a b => le_total a.tgName b.tgName⟩

instance : IsTrans TargetGroup tgLE := ⟨fun _ _ _ h1 h2 => le_trans h1 h2⟩

/-- The final stable sorts by name (`sort.Stable(OrderLoadBalancersByName)`
and `sort.Stable(OrderTargetGroupsByName)`). -/
def asgSort (t : AutoscalingGroup) : AutoscalingGroup :=
  { t with
    loadBalancers := List.insertionSort lbLE t.loadBalancers
    targetGroups := List.insertionSort tgLE t.targetGroups }

/-- Mixed-instances policy fields copied through verbatim when present. -/
def asgMixedPolicy (ig : InstanceGroupSpec) (t : AutoscalingGroup) : AutoscalingGroup :=
  match ig.mixedInstancesPolicy with
  | some spec =>
    { t with
      mixedInstanceOverrides := spec.instances
      mixedOnDemandAboveBase := spec.onDemandAboveBase
      mixedOnDemandAllocationStrategy := spec.onDemandAllocationStrategy
      mixedOnDemandBase := spec.onDemandBase
      mixedSpotAllocationStrategy := spec.spotAllocationStrategy
      mixedSpotInstancePools := spec.spotInstancePools
      mixedSpotMaxPrice := ig.maxPrice }
  | none => t

/-- `buildAutoScalingGroupTask`, in the source's statement order: literal,
capacity, gathered subnets (empty is a hard error), tags, processes,
protection, managed and external attachments, the final sorts, then the
mixed-instances policy. -/
def buildAutoScalingGroupTask (b : BuilderEnv) (name : String) (ig : InstanceGroupSpec) :
    Except BuildError AutoscalingGroup :=
  let t := asgCapacity ig (asgLiteral name)
  match b.gatheredSubnets with
  | none => .error .gatherSubnets
  | some subnets =>
    if subnets = [] then .error .emptySubnets
    else
      match b.cloudTags with
      | none => .error .cloudTags
      | some tags =>
        let t := asgManagedLBs b ig (asgTagsEtc ig tags (asgSubnets b subnets t))
        match attachExternalLBs b name ig.externalLoadBalancers t with
        | .error e => .error e
        | .ok t2 => .ok (asgMixedPolicy ig (asgSort t2))

/-! ## Inversion lemmas: what a successful build must look like -/

lemma buildLC_ok_inv {b : BuilderEnv} {name : String} {ig : InstanceGroupSpec}
    {t : LaunchConfiguration} {ig' : InstanceGroupSpec}
    (h : buildLaunchConfigurationTask b name ig = .ok (t, ig')) :
    ig' = specAfterBuild ig ∧
    ∃ dvs link sk userData s0 rest,
      b.defaultVolumeSize = some dvs ∧
      b.iamInstanceProfile = some link ∧
      sshKeyResult b = .ok sk ∧
      b.userData = some userData ∧
      b.gatheredSubnets = some (s0 :: rest) ∧
      t = assembleLC b name ig dvs link sk userData s0 := by
  unfold buildLaunchConfigurationTask at h
  cases hdvs : b.defaultVolumeSize with
  | none => simp only [hdvs] at h; cases h
  | some dvs =>
    simp only [hdvs] at h
    cases hiam : b.iamInstanceProfile with
    | none => simp only [hiam] at h; cases h
    | some link =>
      simp only [hiam] at h
      cases hsk : sshKeyResult b with
      | error e => simp only [hsk] at h; cases h
      | ok sk =>
        simp only [hsk] at h
        cases hud : b.userData with
        | none => simp only [hud] at h; cases h
        | some u =>
          simp only [hud] at h
          cases hgs : b.gatheredSubnets with
          | none => simp only [hgs] at h; cases h
          | some subnets =>
            cases subnets with
            | nil => simp only [hgs] at h; cases h
            | cons s0 rest =>
              simp only [hgs, Except.ok.injEq, Prod.mk.injEq] at h
              exact ⟨h.2.symm, dvs, link, sk, u, s0, rest, rfl, rfl, rfl, rfl, rfl, h.1.symm⟩

lemma buildLT_ok_inv {b : BuilderEnv} {name : String} {ig : InstanceGroupSpec}
    {lt : LaunchTemplate} {ig' : InstanceGroupSpec}
    (h : buildLaunchTemplateTask b name ig = .ok (lt, ig')) :
    ∃ lc tags,
      buildLaunchConfigurationTask b name ig = .ok (lc, ig') ∧
      b.cloudTags = some tags ∧
      lt = assembleLT name tags ig' lc := by
  unfold buildLaunchTemplateTask at h
  cases hlc : buildLaunchConfigurationTask b name ig with
  | error e => simp only [hlc] at h; cases h
  | ok p =>
    obtain ⟨lc, ig2⟩ := p
    simp only [hlc] at h
    cases htg : b.cloudTags with
    | none => simp only [htg] at h; cases h
    | some tags =>
      simp only [htg, Except.ok.injEq, Prod.mk.injEq] at h
      obtain ⟨h1, h2⟩ := h
      subst h2
      exact ⟨lc, tags, rfl, rfl, h1.symm⟩

lemma attachExternalLBs_capacity (b : BuilderEnv) (name : String) :
    ∀ (l : List ExternalLoadBalancerSpec) (t t2 : AutoscalingGroup),
      attachExternalLBs b name l t = .ok t2 →
      t2.minSize = t.minSize ∧ t2.maxSize = t.maxSize := by
  intro l
  induction l with
  | nil =>
    intro t t2 h
    unfold attachExternalLBs at h
    simp only [Except.ok.injEq] at h
    subst h
    exact ⟨rfl, rfl⟩
  | cons x rest ih =>
    intro t t2 h
    unfold attachExternalLBs at h
    cases hlb : x.loadBalancerName with
    | none =>
      simp only [hlb] at h
      cases harn : x.targetGroupARN with
      | none =>
        simp only [harn] at h
        exact ih t t2 h
      | some arn =>
        simp only [harn] at h
        cases hres : b.targetGroupNameFromARN arn with
        | none => simp only [hres] at h; cases h
        | some tgn =>
          simp only [hres] at h
          obtain ⟨h1, h2⟩ := ih _ _ h
          exact ⟨h1, h2⟩
    | some nm =>
      simp only [hlb] at h
      cases harn : x.targetGroupARN with
      | none =>
        simp only [harn] at h
        obtain ⟨h1, h2⟩ := ih _ _ h
        exact ⟨h1, h2⟩
      | some arn =>
        simp only [harn] at h
        cases hres : b.targetGroupNameFromARN arn with
        | none => simp only [hres] at h; cases h
        | some tgn =>
          simp only [hres] at h
          obtain ⟨h1, h2⟩ := ih _ _ h
          exact ⟨h1, h2⟩

lemma buildASG_ok_inv {b : BuilderEnv} {name : String} {ig : InstanceGroupSpec}
    {t : AutoscalingGroup} (h : buildAutoScalingGroupTask b name ig = .ok t) :
    ∃ subnets tags t2,
      b.gatheredSubnets = some subnets ∧ subnets ≠ [] ∧ b.cloudTags = some tags ∧
      attachExternalLBs b name ig.externalLoadBalancers
        (asgManagedLBs b ig (asgTagsEtc ig tags (asgSubnets b subnets (asgCapacity ig (asgLiteral name))))) = .ok t2 ∧
      t = asgMixedPolicy ig (asgSort t2) := by
  unfold buildAutoScalingGroupTask at h
  cases hgs : b.gatheredSubnets with
  | none => simp only [hgs] at h; cases h
  | some subnets =>
    simp only [hgs] at h
    by_cases hemp : subnets = []
    · simp only [if_pos hemp] at h; cases h
    · simp only [if_neg hemp] at h
      cases htg : b.cloudTags with
      | none => simp only [htg] at h; cases h
      | some tags =>
        simp only [htg] at h
        cases hatt : attachExternalLBs b name ig.externalLoadBalancers
            (asgManagedLBs b ig (asgTagsEtc ig tags (asgSubnets b subnets (asgCapacity ig (asgLiteral name))))) with
        | error e => simp only [hatt] at h; cases h
        | ok t2 =>
          simp only [hatt, Except.ok.injEq] at h
          exact ⟨subnets, tags, t2, rfl, hemp, rfl, hatt, h.symm⟩

/-! ## Field-level facts about the assembled resources -/

lemma assembleLC_associatePublicIP (b : BuilderEnv) (name : String) (ig : InstanceGroupSpec)
    (dvs : Int) (link : String) (sk : Option String) (u : String) (s0 : Subnet) :
    (assembleLC b name ig dvs link sk u s0).associatePublicIP =
      match s0.typ with
      | .Public | .Utility =>
        some (match ig.associatePublicIP with
              | some v => v
              | none => true)
      | .Private => some false := rfl

lemma assembleLC_rootVolumeIops (b : BuilderEnv) (name : String) (ig : InstanceGroupSpec)
    (dvs : Int) (link : String) (sk : Option String) (u : String) (s0 : Subnet) :
    (assembleLC b name ig dvs link sk u s0).rootVolumeIops =
      if normalizedRootVolumeType ig = VolumeTypeIo1 ∨ normalizedRootVolumeType ig = VolumeTypeIo2 then
        (if fiInt32Value ig.rootVolumeIops < 100 then some DefaultVolumeIonIops
         else some (fiInt32Value ig.rootVolumeIops))
      else none := rfl

lemma assembleLC_rootVolumeType (b : BuilderEnv) (name : String) (ig : InstanceGroupSpec)
    (dvs : Int) (link : String) (sk : Option String) (u : String) (s0 : Subnet) :
    (assembleLC b name ig dvs link sk u s0).rootVolumeType = normalizedRootVolumeType ig := rfl

lemma assembleLC_spotPrice (b : BuilderEnv) (name : String) (ig : InstanceGroupSpec)
    (dvs : Int) (link : String) (sk : Option String) (u : String) (s0 : Subnet) :
    (assembleLC b name ig dvs link sk u s0).spotPrice =
      if fiStringValue ig.maxPrice ≠ "" then fiStringValue ig.maxPrice else "" := rfl

lemma assembleLC_blockDeviceMappings (b : BuilderEnv) (name : String) (ig : InstanceGroupSpec)
    (dvs : Int) (link : String) (sk : Option String) (u : String) (s0 : Subnet) :
    (assembleLC b name ig dvs link sk u s0).blockDeviceMappings =
      (ig.volumes.map normalizeVolume).map volumeMapping := rfl

lemma assembleLT_spotPrice (name : String) (tags : List (String × String))
    (ig2 : InstanceGroupSpec) (lc : LaunchConfiguration) :
    (assembleLT name tags ig2 lc).spotPrice =
      if ig2.mixedInstancesPolicy = none then lc.spotPrice else "" := by
  unfold assembleLT ltGp3
  split <;> rfl

lemma assembleLT_rootVolumeType (name : String) (tags : List (String × String))
    (ig2 : InstanceGroupSpec) (lc : LaunchConfiguration) :
    (assembleLT name tags ig2 lc).rootVolumeType = lc.rootVolumeType := by
  unfold assembleLT ltGp3
  split <;> rfl

lemma assembleLT_gp3 (name : String) (tags : List (String × String))
    (ig2 : InstanceGroupSpec) (lc : LaunchConfiguration)
    (hg : lc.rootVolumeType = VolumeTypeGp3) :
    (assembleLT name tags ig2 lc).rootVolumeIops =
      (if fiInt32Value ig2.rootVolumeIops < 3000 then some DefaultVolumeGp3Iops
       else some (fiInt32Value ig2.rootVolumeIops)) ∧
    (assembleLT name tags ig2 lc).rootVolumeThroughput =
      (if fiInt32Value ig2.rootVolumeThroughput < 125 then some DefaultVolumeGp3Throughput
       else some (fiInt32Value ig2.rootVolumeThroughput)) := by
  unfold assembleLT ltGp3
  rw [if_pos (show (ltKmsKey ig2 (ltInterruption ig2 (ltSpotDuration ig2
      (ltSpotPrice ig2 lc (ltLiteral name tags lc))))).rootVolumeType = VolumeTypeGp3 from hg)]
  exact ⟨rfl, rfl⟩

lemma asgMixedPolicy_frame (ig : InstanceGroupSpec) (t : AutoscalingGroup) :
    (asgMixedPolicy ig t).minSize = t.minSize ∧
    (asgMixedPolicy ig t).maxSize = t.maxSize ∧
    (asgMixedPolicy ig t).loadBalancers = t.loadBalancers ∧
    (asgMixedPolicy ig t).targetGroups = t.targetGroups := by
  unfold asgMixedPolicy
  cases ig.mixedInstancesPolicy <;> exact ⟨rfl, rfl, rfl, rfl⟩

lemma asgMasterLB_capacity (b : BuilderEnv) (ig : InstanceGroupSpec) (t : AutoscalingGroup) :
    (asgMasterLB b ig t).minSize = t.minSize ∧ (asgMasterLB b ig t).maxSize = t.maxSize := by
  unfold asgMasterLB
  split
  · split <;> exact ⟨rfl, rfl⟩
  · exact ⟨rfl, rfl⟩

lemma asgBastionLB_capacity (b : BuilderEnv) (ig : InstanceGroupSpec) (t : AutoscalingGroup) :
    (asgBastionLB b ig t).minSize = t.minSize ∧ (asgBastionLB b ig t).maxSize = t.maxSize := by
  unfold asgBastionLB
  split <;> exact ⟨rfl, rfl⟩

lemma asgManagedLBs_capacity (b : BuilderEnv) (ig : InstanceGroupSpec) (t : AutoscalingGroup) :
    (asgManagedLBs b ig t).minSize = t.minSize ∧ (asgManagedLBs b ig t).maxSize = t.maxSize := by
  unfold asgManagedLBs
  split
  · obtain ⟨h1, h2⟩ := asgBastionLB_capacity b ig (asgMasterLB b ig t)
    obtain ⟨h3, h4⟩ := asgMasterLB_capacity b ig t
    exact ⟨h1.trans h3, h2.trans h4⟩
  · exact ⟨rfl, rfl⟩

/-! ## Concrete sample inputs used by the witnesses -/

/-- A minimal worker-group specification. -/
def specBase : InstanceGroupSpec :=
  { role := .Node
    image := "ami-12345678"
    machineType := "t3.medium"
    minSize := none
    maxSize := none
    rootVolumeSize := none
    rootVolumeType := none
    rootVolumeIops := none
    rootVolumeThroughput := none
    rootVolumeEncryption := none
    rootVolumeEncryptionKey := none
    rootVolumeDeleteOnTermination := none
    rootVolumeOptimization := none
    volumes := []
    securityGroupOverride := none
    additionalSecurityGroups := []
    tenancy := ""
    instanceMetadata := none
    mixedInstancesPolicy := none
    externalLoadBalancers := []
    maxPrice := none
    spotDurationInMinutes := none
    instanceInterruptionBehavior := none
    associatePublicIP := none
    suspendProcesses := []
    detailedInstanceMonitoring := none
    instanceProtection := none
    subnetNames := ["us-test-1a"] }

/-- An environment in which every collaborator succeeds. -/
def envBase : BuilderEnv :=
  { defaultVolumeSize := some 128
    roleSecurityGroup := { id := none, sgName := some "nodes.example.com", shared := false }
    iamInstanceProfile := some "nodes.example.com"
    apiLoadBalancerClassNetwork := false
    clusterAPIAdditionalSecurityGroups := []
    useSSHKey := false
    sshKey := none
    userData := some "nodeup-script"
    gatheredSubnets := some [{ typ := .Public, subnetName := "us-test-1a" }]
    cloudTags := some [("Name", "nodes.example.com")]
    flagSpotinst := false
    flagSpotinstHybrid := false
    hybridIG := false
    useLoadBalancerForAPI := false
    useNetworkLoadBalancer := false
    sslCertificate := ""
    targetGroupNameFromARN := fun _ => none
    linkToCLB := fun s => { clbName := s, loadBalancerName := some s, shared := false }
    linkToTargetGroup := fun s => { tgName := s, arn := none, shared := false }
    linkToSubnet := fun s => s.subnetName }

/-- An additional volume whose type is left empty. -/
def volEmptyType : VolumeSpec :=
  { device := "/dev/xvdb", size := 20, typ := "", iops := none, throughput := none,
    deleteOnTermination := none, encrypted := none, key := none }

/-- The base spec with one additional volume of unset type. -/
def specWithVolume : InstanceGroupSpec := { specBase with volumes := [volEmptyType] }

/-! ## C1: does the build pass leave the input specification unchanged? -/

/-- C1 counterexample: building the launch configuration for a spec whose
additional volume has an unset type returns a specification whose volume
entry now carries type `gp2` — the build does not leave the input
`InstanceGroupSpec` unchanged. -/
theorem C1_counterexample :
    (buildLaunchConfigurationTask envBase "nodes" specWithVolume).toOption.map Prod.snd =
      some (specAfterBuild specWithVolume) ∧
    specAfterBuild specWithVolume ≠ specWithVolume := by decide

/-- C1 (amended): on a successful build, the only change the build pass
makes to the specification is the in-place normalization of the
additional-volumes entries (their `Type`, `Iops` and `Throughput`); every
other field of every volume entry, and every other field of the spec, is
returned unchanged. -/
theorem C1_amended_mutates_only_volumes (b : BuilderEnv) (name : String) (ig : InstanceGroupSpec) :
    (∀ t ig', buildLaunchConfigurationTask b name ig = .ok (t, ig') → ig' = specAfterBuild ig) ∧
    (∀ lt ig', buildLaunchTemplateTask b name ig = .ok (lt, ig') → ig' = specAfterBuild ig) ∧
    (∀ x : VolumeSpec,
      (normalizeVolume x).device = x.device ∧
      (normalizeVolume x).size = x.size ∧
      (normalizeVolume x).deleteOnTermination = x.deleteOnTermination ∧
      (normalizeVolume x).encrypted = x.encrypted ∧
      (normalizeVolume x).key = x.key) := by
  refine ⟨?_, ?_, ?_⟩
  · intro t ig' h
    exact (buildLC_ok_inv h).1
  · intro lt ig' h
    obtain ⟨lc, tags, hlc, -, -⟩ := buildLT_ok_inv h
    exact (buildLC_ok_inv hlc).1
  · intro x
    simp only [normalizeVolume]
    split_ifs <;> exact ⟨rfl, rfl, rfl, rfl, rfl⟩

/-- Witness for the amended C1 at a concrete successful build. -/
theorem C1_amended_witness :
    ∃ t ig', buildLaunchConfigurationTask envBase "nodes" specWithVolume = Except.ok (t, ig') ∧
      ig' = specAfterBuild specWithVolume := by
  rcases hh : buildLaunchConfigurationTask envBase "nodes" specWithVolume with e | ⟨t, ig'⟩
  · have hok : (buildLaunchConfigurationTask envBase "nodes" specWithVolume).toOption ≠ none := by decide
    rw [hh] at hok
    exact absurd rfl hok
  · exact ⟨t, ig', rfl, (C1_amended_mutates_only_volumes envBase "nodes" specWithVolume).1 t ig' hh⟩

/-! ## C2: ocean launch-spec delete suppresses "ocean does not exist" -/

/-- C2: deleting an ocean launch spec whose backend API error (a
`client.Errors` value) carries any entry whose message contains,
case-insensitively, "ocean does not exist" returns success; any backend
error none of whose messages contains that substring is returned
unchanged. -/
theorem C2_delete_ocean_suppression (err : GoError) :
    ((∃ errs, err = GoError.clientErrors errs ∧
        ∃ e ∈ errs, goContains (goToLower e.message) oceanNotExistMsg = true) →
      awsOceanLaunchSpecDelete (some err) = none) ∧
    (errMessagesContainOcean err = false →
      awsOceanLaunchSpecDelete (some err) = some err) := by
  constructor
  · rintro ⟨errs, rfl, e, he, hc⟩
    simp only [awsOceanLaunchSpecDelete]
    rw [if_pos (List.any_eq_true.mpr ⟨e, he, hc⟩)]
  · intro hfalse
    cases err with
    | clientErrors errs =>
      simp only [errMessagesContainOcean] at hfalse
      simp only [awsOceanLaunchSpecDelete, hfalse]
      simp
    | other msg => rfl

/-- Witness for C2: a mixed-case "Ocean Does Not Exist" API error is
suppressed; an unrelated error propagates unchanged. -/
theorem C2_witness :
    awsOceanLaunchSpecDelete
      (some (GoError.clientErrors [{ code := "400", message := "Ocean Does Not Exist" }])) = none ∧
    awsOceanLaunchSpecDelete (some (GoError.other "connection refused")) =
      some (GoError.other "connection refused") :=
  ⟨(C2_delete_ocean_suppression
      (GoError.clientErrors [{ code := "400", message := "Ocean Does Not Exist" }])).1
      ⟨[{ code := "400", message := "Ocean Does Not Exist" }], rfl,
       { code := "400", message := "Ocean Does Not Exist" }, by decide, by decide⟩,
   (C2_delete_ocean_suppression (GoError.other "connection refused")).2 (by decide)⟩

/-! ## C9: the detach contract is fixed -/

/-- C9: every adapter variant's detach request carries
decrement-target-capacity = false and terminate-instance = true. -/
theorem C9_detach_fixed_contract (groupID clusterID specID instanceID : String) :
    (awsElastigroupDetachInput groupID instanceID).shouldDecrementTargetCapacity = false ∧
    (awsElastigroupDetachInput groupID instanceID).shouldTerminateInstances = true ∧
    (awsOceanClusterDetachInput clusterID instanceID).shouldDecrementTargetCapacity = false ∧
    (awsOceanClusterDetachInput clusterID instanceID).shouldTerminateInstances = true ∧
    (awsOceanLaunchSpecDetachInput specID instanceID).shouldDecrementTargetCapacity = false ∧
    (awsOceanLaunchSpecDetachInput specID instanceID).shouldTerminateInstances = true :=
  ⟨rfl, rfl, rfl, rfl, rfl, rfl⟩

/-! ## C3: gp3 floors -/

/-- A spec requesting a gp3 root volume with iops and throughput unset. -/
def specGp3 : InstanceGroupSpec := { specBase with rootVolumeType := some "gp3" }

/-- C3 counterexample: for a gp3 spec the Configuration-shape launch
resource leaves root iops absent — not floored to 3000 — so the claim
does not hold of every produced launch resource. -/
theorem C3_counterexample :
    specGp3.rootVolumeType = some VolumeTypeGp3 ∧
    specGp3.rootVolumeIops = none ∧
    (buildLaunchConfigurationTask envBase "nodes" specGp3).toOption.map
      (fun r => r.1.rootVolumeIops) = some none ∧
    (none : Option Int) ≠ some DefaultVolumeGp3Iops := by decide

/-- C3 (amended): for every specification whose normalized root volume
type is gp3, the Template-shape launch resource has root iops 3000 when
the requested iops is unset or below 3000 (otherwise the requested
value), and root throughput 125 when the requested throughput is unset or
below 125 (otherwise the requested value); the Configuration shape leaves
both absent. -/
theorem C3_amended_gp3_floors (b : BuilderEnv) (name : String) (ig : InstanceGroupSpec)
    (lt : LaunchTemplate) (ig' : InstanceGroupSpec)
    (h : buildLaunchTemplateTask b name ig = .ok (lt, ig'))
    (hgp3 : normalizedRootVolumeType ig = VolumeTypeGp3) :
    lt.rootVolumeIops =
      (if fiInt32Value ig.rootVolumeIops < 3000 then some DefaultVolumeGp3Iops
       else some (fiInt32Value ig.rootVolumeIops)) ∧
    lt.rootVolumeThroughput =
      (if fiInt32Value ig.rootVolumeThroughput < 125 then some DefaultVolumeGp3Throughput
       else some (fiInt32Value ig.rootVolumeThroughput)) := by
  obtain ⟨lc, tags, hlc, htg, hlt⟩ := buildLT_ok_inv h
  obtain ⟨hig', dvs, link, sk, u, s0, rest, hdvs, hiam, hsk, hud, hgs, ht⟩ := buildLC_ok_inv hlc
  subst hlt
  subst hig'
  subst ht
  have hg : (assembleLC b name ig dvs link sk u s0).rootVolumeType = VolumeTypeGp3 := by
    rw [assembleLC_rootVolumeType]
    exact hgp3
  exact assembleLT_gp3 name tags (specAfterBuild ig) _ hg

/-- A gp3 spec with requested iops 4000 (above the floor). -/
def specGp3Hi : InstanceGroupSpec :=
  { specBase with rootVolumeType := some "gp3", rootVolumeIops := some 4000 }

/-- Witness for the amended C3: iops 4000 is kept, unset throughput is
floored to 125 on the template. -/
theorem C3_amended_witness :
    ∃ lt ig', buildLaunchTemplateTask envBase "nodes" specGp3Hi = Except.ok (lt, ig') ∧
      lt.rootVolumeIops = some 4000 ∧ lt.rootVolumeThroughput = some 125 := by
  rcases hh : buildLaunchTemplateTask envBase "nodes" specGp3Hi with e | ⟨lt, ig'⟩
  · have hok : (buildLaunchTemplateTask envBase "nodes" specGp3Hi).toOption ≠ none := by decide
    rw [hh] at hok
    exact absurd rfl hok
  · obtain ⟨h1, h2⟩ := C3_amended_gp3_floors envBase "nodes" specGp3Hi lt ig' hh (by decide)
    exact ⟨lt, ig', rfl, by rw [h1]; decide, by rw [h2]; decide⟩

/-! ## C4: additional block-device normalization -/

lemma normalizeVolume_io (x : VolumeSpec)
    (hio : x.typ = VolumeTypeIo1 ∨ x.typ = VolumeTypeIo2) :
    (normalizeVolume x).iops = (if x.iops = none then some DefaultVolumeIonIops else x.iops) := by
  have hne : ¬ x.typ = "" := by
    rcases hio with h | h <;> (rw [h]; decide)
  rcases hio with h | h <;>
    rcases hi : x.iops with _ | v <;>
      simp [normalizeVolume, hne, h, VolumeTypeIo1, VolumeTypeIo2, hi]

lemma normalizeVolume_gp3 (x : VolumeSpec) (hg : x.typ = VolumeTypeGp3) :
    (normalizeVolume x).iops = (if x.iops = none then some DefaultVolumeGp3Iops else x.iops) ∧
    (normalizeVolume x).throughput =
      (if x.throughput = none then some DefaultVolumeGp3Throughput else x.throughput) := by
  have hne : ¬ x.typ = "" := by
    rw [hg]; decide
  rcases hi : x.iops with _ | v <;>
    rcases hth : x.throughput with _ | w <;>
      simp [normalizeVolume, hne, hg, VolumeTypeIo1, VolumeTypeIo2, VolumeTypeGp3, hi, hth]

lemma normalizeVolume_other (x : VolumeSpec)
    (h1 : x.typ ≠ VolumeTypeIo1) (h2 : x.typ ≠ VolumeTypeIo2) (h3 : x.typ ≠ VolumeTypeGp3) :
    (normalizeVolume x).iops = none := by
  by_cases h0 : x.typ = ""
  · simp [normalizeVolume, h0, DefaultVolumeType, VolumeTypeIo1, VolumeTypeIo2, VolumeTypeGp3]
  · simp [normalizeVolume, h0, h1, h2, h3]

/-- An io1 additional volume with iops 50, below the policy minimum. -/
def volIo1Low : VolumeSpec :=
  { device := "/dev/xvdc", size := 100, typ := "io1", iops := some 50, throughput := none,
    deleteOnTermination := none, encrypted := none, key := none }

/-- The base spec with the below-minimum io1 volume. -/
def specIo1LowVol : InstanceGroupSpec := { specBase with volumes := [volIo1Low] }

/-- C4 counterexample: an io1 additional volume with iops 50 (below the
policy minimum 100) keeps 50 in the built mapping — the loop defaults
iops only when it is unset, it does not floor set values. -/
theorem C4_counterexample :
    volIo1Low.typ = VolumeTypeIo1 ∧
    volIo1Low.iops = some 50 ∧
    (buildLaunchConfigurationTask envBase "nodes" specIo1LowVol).toOption.map
      (fun r => r.1.blockDeviceMappings.map BlockDeviceMapping.ebsVolumeIops) = some [some 50] ∧
    some (50 : Int) ≠ some DefaultVolumeIonIops := by decide

/-- C4 (amended): per additional-volumes entry, an unset iops is defaulted
to 100 for io1/io2 and to 3000 for gp3; an unset throughput is defaulted
to 125 for gp3; an explicitly set value — even one below the policy
minimum — is kept unchanged; any other type gets iops cleared to absent.
The launch resource's mappings are exactly the normalized entries. -/
theorem C4_amended_volume_normalization (b : BuilderEnv) (name : String) (ig : InstanceGroupSpec)
    (t : LaunchConfiguration) (ig' : InstanceGroupSpec)
    (h : buildLaunchConfigurationTask b name ig = .ok (t, ig')) :
    t.blockDeviceMappings = (ig.volumes.map normalizeVolume).map volumeMapping ∧
    ∀ x ∈ ig.volumes,
      ((x.typ = VolumeTypeIo1 ∨ x.typ = VolumeTypeIo2) →
        (normalizeVolume x).iops = (if x.iops = none then some DefaultVolumeIonIops else x.iops)) ∧
      (x.typ = VolumeTypeGp3 →
        (normalizeVolume x).iops = (if x.iops = none then some DefaultVolumeGp3Iops else x.iops) ∧
        (normalizeVolume x).throughput =
          (if x.throughput = none then some DefaultVolumeGp3Throughput else x.throughput)) ∧
      ((x.typ ≠ VolumeTypeIo1 ∧ x.typ ≠ VolumeTypeIo2 ∧ x.typ ≠ VolumeTypeGp3) →
        (normalizeVolume x).iops = none) := by
  constructor
  · obtain ⟨hig', dvs, link, sk, u, s0, rest, hdvs, hiam, hsk, hud, hgs, ht⟩ := buildLC_ok_inv h
    subst ht
    exact assembleLC_blockDeviceMappings b name ig dvs link sk u s0
  · intro x _
    exact ⟨normalizeVolume_io x, normalizeVolume_gp3 x,
           fun hc => normalizeVolume_other x hc.1 hc.2.1 hc.2.2⟩

/-- Witness for the amended C4 at a concrete successful build with an io1
volume of unset iops. -/
theorem C4_amended_witness :
    ∃ t ig',
      buildLaunchConfigurationTask envBase "nodes"
        { specBase with volumes := [{ volIo1Low with iops := none }] } = Except.ok (t, ig') ∧
      t.blockDeviceMappings =
        (({ specBase with volumes := [{ volIo1Low with iops := none }] } :
            InstanceGroupSpec).volumes.map normalizeVolume).map volumeMapping ∧
      (normalizeVolume { volIo1Low with iops := none }).iops = some DefaultVolumeIonIops := by
  rcases hh : buildLaunchConfigurationTask envBase "nodes"
      { specBase with volumes := [{ volIo1Low with iops := none }] } with e | ⟨t, ig'⟩
  · have hok : (buildLaunchConfigurationTask envBase "nodes"
        { specBase with volumes := [{ volIo1Low with iops := none }] }).toOption ≠ none := by decide
    rw [hh] at hok
    exact absurd rfl hok
  · obtain ⟨hmap, hall⟩ :=
      C4_amended_volume_normalization envBase "nodes"
        { specBase with volumes := [{ volIo1Low with iops := none }] } t ig' hh
    refine ⟨t, ig', rfl, hmap, ?_⟩
    have := (hall { volIo1Low with iops := none } (by decide)).1 (by decide)
    rw [this]
    decide

/-! ## C5: template spot price vs. mixed-instances policy -/

/-- C5: the Template-shape launch resource's spot price is the empty
string whenever a mixed-instances policy is present (regardless of the
spec's max price), and is the spec's max price whenever no policy is
present and the max price is non-empty. -/
theorem C5_template_spot_price (b : BuilderEnv) (name : String) (ig : InstanceGroupSpec)
    (lt : LaunchTemplate) (ig' : InstanceGroupSpec)
    (h : buildLaunchTemplateTask b name ig = .ok (lt, ig')) :
    (ig.mixedInstancesPolicy ≠ none → lt.spotPrice = "") ∧
    (ig.mixedInstancesPolicy = none → fiStringValue ig.maxPrice ≠ "" →
      lt.spotPrice = fiStringValue ig.maxPrice) := by
  obtain ⟨lc, tags, hlc, htg, hlt⟩ := buildLT_ok_inv h
  obtain ⟨hig', dvs, link, sk, u, s0, rest, hdvs, hiam, hsk, hud, hgs, ht⟩ := buildLC_ok_inv hlc
  subst hlt
  subst hig'
  subst ht
  constructor
  · intro hmix
    rw [assembleLT_spotPrice, if_neg]
    exact fun hc => hmix hc
  · intro hmix hmp
    rw [assembleLT_spotPrice,
      if_pos (show (specAfterBuild ig).mixedInstancesPolicy = none from hmix),
      assembleLC_spotPrice, if_pos hmp]

/-- A spec with a mixed-instances policy and a max price. -/
def specMixed : InstanceGroupSpec :=
  { specBase with
    maxPrice := some "0.42"
    mixedInstancesPolicy := some
      { instances := ["t3.medium", "t3.large"]
        onDemandAllocationStrategy := none
        onDemandBase := none
        onDemandAboveBase := none
        spotAllocationStrategy := none
        spotInstancePools := none } }

/-- Witness for C5: with a mixed-instances policy the template spot price
is empty even though the spec's max price is "0.42". -/
theorem C5_witness :
    ∃ lt ig', buildLaunchTemplateTask envBase "nodes" specMixed = Except.ok (lt, ig') ∧
      lt.spotPrice = "" := by
  rcases hh : buildLaunchTemplateTask envBase "nodes" specMixed with e | ⟨lt, ig'⟩
  · have hok : (buildLaunchTemplateTask envBase "nodes" specMixed).toOption ≠ none := by decide
    rw [hh] at hok
    exact absurd rfl hok
  · exact ⟨lt, ig', rfl,
      (C5_template_spot_price envBase "nodes" specMixed lt ig' hh).1 (by decide)⟩

/-! ## C6: associate-public-IP from the first gathered subnet -/

/-- C6: a first gathered subnet of type public or utility makes the
launch resource's associate-public-ip default to true with a
spec-supplied value overriding it; a first subnet of type private forces
associate-public-ip to false, and a spec-supplied value does not
override it. -/
theorem C6_public_ip (b : BuilderEnv) (name : String) (ig : InstanceGroupSpec)
    (t : LaunchConfiguration) (ig' : InstanceGroupSpec) (s0 : Subnet) (rest : List Subnet)
    (h : buildLaunchConfigurationTask b name ig = .ok (t, ig'))
    (hs : b.gatheredSubnets = some (s0 :: rest)) :
    ((s0.typ = SubnetType.Public ∨ s0.typ = SubnetType.Utility) →
      (ig.associatePublicIP = none → t.associatePublicIP = some true) ∧
      (∀ v, ig.associatePublicIP = some v → t.associatePublicIP = some v)) ∧
    (s0.typ = SubnetType.Private → t.associatePublicIP = some false) := by
  obtain ⟨hig', dvs, link, sk, u, s0', rest', hdvs, hiam, hsk, hud, hgs, ht⟩ := buildLC_ok_inv h
  have hss : s0 = s0' ∧ rest = rest' := by
    have h2 := hs.symm.trans hgs
    simp only [Option.some.injEq, List.cons.injEq] at h2
    exact h2
  obtain ⟨hss1, -⟩ := hss
  subst hss1
  subst ht
  constructor
  · intro hpub
    constructor
    · intro hnone
      rw [assembleLC_associatePublicIP]
      rcases hpub with h1 | h1 <;> rw [h1] <;> simp [hnone]
    · intro v hv
      rw [assembleLC_associatePublicIP]
      rcases hpub with h1 | h1 <;> rw [h1] <;> simp [hv]
  · intro hpriv
    rw [assembleLC_associatePublicIP, hpriv]

/-- An environment whose first gathered subnet is private. -/
def envPrivate : BuilderEnv :=
  { envBase with gatheredSubnets := some [{ typ := .Private, subnetName := "priv-1a" }] }

/-- A spec that explicitly asks for a public IP. -/
def specWantsPublicIP : InstanceGroupSpec := { specBase with associatePublicIP := some true }

/-- Witness for C6: a private first subnet forces associate-public-ip to
false even though the spec asks for true. -/
theorem C6_witness :
    ∃ t ig', buildLaunchConfigurationTask envPrivate "nodes" specWantsPublicIP = Except.ok (t, ig') ∧
      t.associatePublicIP = some false := by
  rcases hh : buildLaunchConfigurationTask envPrivate "nodes" specWantsPublicIP with e | ⟨t, ig'⟩
  · have hok : (buildLaunchConfigurationTask envPrivate "nodes" specWantsPublicIP).toOption ≠ none := by
      decide
    rw [hh] at hok
    exact absurd rfl hok
  · exact ⟨t, ig', rfl,
      (C6_public_ip envPrivate "nodes" specWantsPublicIP t ig'
        { typ := .Private, subnetName := "priv-1a" } [] hh rfl).2 rfl⟩

/-! ## C7: root volume iops on the launch configuration -/

/-- C7: for a root volume of type io1 or io2 the launch resource's root
iops is 100 when the requested iops is unset or below 100 and the
requested value when at least 100; for a root volume type that is not
iops-eligible (not io1, io2 or gp3) the root iops is absent even if a
value was present on input. -/
theorem C7_root_iops (b : BuilderEnv) (name : String) (ig : InstanceGroupSpec)
    (t : LaunchConfiguration) (ig' : InstanceGroupSpec)
    (h : buildLaunchConfigurationTask b name ig = .ok (t, ig')) :
    ((normalizedRootVolumeType ig = VolumeTypeIo1 ∨ normalizedRootVolumeType ig = VolumeTypeIo2) →
      (fiInt32Value ig.rootVolumeIops < 100 → t.rootVolumeIops = some DefaultVolumeIonIops) ∧
      (100 ≤ fiInt32Value ig.rootVolumeIops →
        t.rootVolumeIops = some (fiInt32Value ig.rootVolumeIops))) ∧
    ((normalizedRootVolumeType ig ≠ VolumeTypeIo1 ∧ normalizedRootVolumeType ig ≠ VolumeTypeIo2 ∧
      normalizedRootVolumeType ig ≠ VolumeTypeGp3) → t.rootVolumeIops = none) := by
  obtain ⟨hig', dvs, link, sk, u, s0, rest, hdvs, hiam, hsk, hud, hgs, ht⟩ := buildLC_ok_inv h
  subst ht
  constructor
  · intro hio
    constructor
    · intro hlow
      rw [assembleLC_rootVolumeIops, if_pos hio, if_pos hlow]
    · intro hge
      rw [assembleLC_rootVolumeIops, if_pos hio, if_neg (not_lt.mpr hge)]
  · rintro ⟨h1, h2, -⟩
    rw [assembleLC_rootVolumeIops, if_neg]
    rintro (hc | hc)
    · exact h1 hc
    · exact h2 hc

/-- A spec requesting an io1 root volume with iops unset. -/
def specIo1Root : InstanceGroupSpec := { specBase with rootVolumeType := some "io1" }

/-- Witness for C7: an io1 root volume with unset iops gets the floor 100. -/
theorem C7_witness :
    ∃ t ig', buildLaunchConfigurationTask envBase "nodes" specIo1Root = Except.ok (t, ig') ∧
      t.rootVolumeIops = some DefaultVolumeIonIops := by
  rcases hh : buildLaunchConfigurationTask envBase "nodes" specIo1Root with e | ⟨t, ig'⟩
  · have hok : (buildLaunchConfigurationTask envBase "nodes" specIo1Root).toOption ≠ none := by decide
    rw [hh] at hok
    exact absurd rfl hok
  · exact ⟨t, ig', rfl,
      ((C7_root_iops envBase "nodes" specIo1Root t ig' hh).1 (by decide)).1 (by decide)⟩

/-! ## C8: capacity bounds of the assembled scaling group -/

/-- C8: the assembled group's capacity bounds are the explicit spec
min/max when set (each independently); otherwise 2/2 for the worker
(node) role and 1/1 for every other role. -/
theorem C8_capacity_defaults (b : BuilderEnv) (name : String) (ig : InstanceGroupSpec)
    (t : AutoscalingGroup) (h : buildAutoScalingGroupTask b name ig = .ok t) :
    (∀ m, ig.minSize = some m → t.minSize = m) ∧
    (∀ m, ig.maxSize = some m → t.maxSize = m) ∧
    (ig.minSize = none → t.minSize = (if ig.role = InstanceGroupRole.Node then 2 else 1)) ∧
    (ig.maxSize = none → t.maxSize = (if ig.role = InstanceGroupRole.Node then 2 else 1)) := by
  obtain ⟨subnets, tags, t2, hgs, hne, htg, hatt, ht⟩ := buildASG_ok_inv h
  subst ht
  obtain ⟨hmin2, hmax2⟩ := attachExternalLBs_capacity b name ig.externalLoadBalancers _ t2 hatt
  obtain ⟨hm3, hm4⟩ :=
    asgManagedLBs_capacity b ig (asgTagsEtc ig tags (asgSubnets b subnets (asgCapacity ig (asgLiteral name))))
  have hMinAll : (asgMixedPolicy ig (asgSort t2)).minSize =
      (match ig.minSize with
       | some m => m
       | none => if ig.role = InstanceGroupRole.Node then 2 else 1) := by
    rw [(asgMixedPolicy_frame ig (asgSort t2)).1]
    show t2.minSize = _
    rw [hmin2, hm3]
    rfl
  have hMaxAll : (asgMixedPolicy ig (asgSort t2)).maxSize =
      (match ig.maxSize with
       | some m => m
       | none => if ig.role = InstanceGroupRole.Node then 2 else 1) := by
    rw [(asgMixedPolicy_frame ig (asgSort t2)).2.1]
    show t2.maxSize = _
    rw [hmax2, hm4]
    rfl
  refine ⟨?_, ?_, ?_, ?_⟩
  · intro m hm
    rw [hMinAll, hm]
  · intro m hm
    rw [hMaxAll, hm]
  · intro hm
    rw [hMinAll, hm]
  · intro hm
    rw [hMaxAll, hm]

/-- Witness for C8: the worker-role base spec with no explicit bounds gets
min 2 and max 2. -/
theorem C8_witness :
    ∃ t, buildAutoScalingGroupTask envBase "nodes" specBase = Except.ok t ∧
      t.minSize = 2 ∧ t.maxSize = 2 := by
  rcases hh : buildAutoScalingGroupTask envBase "nodes" specBase with e | t
  · have hok : (buildAutoScalingGroupTask envBase "nodes" specBase).toOption ≠ none := by decide
    rw [hh] at hok
    exact absurd rfl hok
  · obtain ⟨-, -, hmin, hmax⟩ := C8_capacity_defaults envBase "nodes" specBase t hh
    exact ⟨t, rfl, (hmin rfl).trans (by decide), (hmax rfl).trans (by decide)⟩

/-! ## C10: the final attachment lists are sorted by name -/

/-- C10: on every assembled scaling group the final load-balancer list
and the final target-group list are each sorted by name, whatever order
the attachments were appended in. -/
theorem C10_attachments_sorted (b : BuilderEnv) (name : String) (ig : InstanceGroupSpec)
    (t : AutoscalingGroup) (h : buildAutoScalingGroupTask b name ig = .ok t) :
    List.Sorted lbLE t.loadBalancers ∧ List.Sorted tgLE t.targetGroups := by
  obtain ⟨subnets, tags, t2, hgs, hne, htg, hatt, ht⟩ := buildASG_ok_inv h
  subst ht
  obtain ⟨-, -, hlb, htg2⟩ := asgMixedPolicy_frame ig (asgSort t2)
  constructor
  · rw [hlb]
    exact List.sorted_insertionSort lbLE t2.loadBalancers
  · rw [htg2]
    exact List.sorted_insertionSort tgLE t2.targetGroups

/-- A spec referencing two external load balancers in reverse name order. -/
def specExtLBs : InstanceGroupSpec :=
  { specBase with externalLoadBalancers :=
      [{ loadBalancerName := some "zz-lb", targetGroupARN := none },
       { loadBalancerName := some "aa-lb", targetGroupARN := none }] }

/-- Witness for C10 at a concrete build with out-of-order attachments. -/
theorem C10_witness :
    ∃ t, buildAutoScalingGroupTask envBase "nodes" specExtLBs = Except.ok t ∧
      List.Sorted lbLE t.loadBalancers ∧ List.Sorted tgLE t.targetGroups := by
  rcases hh : buildAutoScalingGroupTask envBase "nodes" specExtLBs with e | t
  · have hok : (buildAutoScalingGroupTask envBase "nodes" specExtLBs).toOption ≠ none := by decide
    rw [hh] at hok
    exact absurd rfl hok
  · exact ⟨t, rfl, C10_attachments_sorted envBase "nodes" specExtLBs t hh⟩

end KopsSpot
